import Mathlib

/-!
Verification of the Pyrlang `Process` core (src/pyrlang/process.py) against
its specification. We shallowly embed the mailbox / selective-receive
algorithm (`Process._receive`, `Process._cleanup_inbox`, `Process.receive`),
the supervision wrapper (`Process.run_wrapper`), the exit-signal propagation
(`Process._on_exit_signal`, `Process._trigger_monitors`,
`Process._trigger_links`) and the link / monitor registry operations
(`Process.remove_link`, `Process.remove_monitor`,
`Process.remove_monitored_by`).

Modelling conventions:
- asyncio queues become Lean lists, front = head; `put_nowait` appends at
  the tail, `get` takes the head (suspending when empty);
- pids and monitor references become `Nat`; Erlang terms (atoms, pids,
  references) become the inductive `Term`, tuples become `List Term`;
- the pattern matcher (external `pyrlang.match.Match`) composed with the
  `matched_pattern.run(msg)` step becomes one function `α → Option β`:
  `none` is "no match", `some r` is "match, and run returns r";
- a raised Python exception becomes an error constructor / `Except.error`.
-/

set_option autoImplicit false

universe u v

variable {α : Type u} {β : Type v}

/-- Erlang-style terms, as far as `process.py` inspects them: atoms (with
their text), pids and references (opaque identities, modelled as `Nat`). -/
inductive Term where
  | atom (s : String)
  | pid (n : Nat)
  | ref (n : Nat)
  deriving DecidableEq, Repr

/-- `isinstance(reason, Atom)` from `Process._trigger_links`. -/
def Term.isAtom : Term → Bool
  | .atom _ => true
  | _ => false

/-- One `while not src.empty(): dst.put_nowait(src.get_nowait())` loop from
`Process._cleanup_inbox`; returns the final `(src, dst)` pair. -/
def drainQueue : List α → List α → List α × List α
  | [], dst => ([], dst)
  | m :: rest, dst => drainQueue rest (dst ++ [m])

/-- `Process._cleanup_inbox`: first drain `inbox_` into `__tmp_inbox`, then
drain `__tmp_inbox` back into `inbox_`. Argument and result order is
`(tmp, inbox)`. -/
def cleanup_inbox (tmp inbox : List α) : List α × List α :=
  let p1 := drainQueue inbox tmp
  let p2 := drainQueue p1.2 p1.1
  (p2.1, p2.2)

/-- How one `_receive` scan ends: either a message matched, or `inbox_` was
exhausted and `await self.inbox_.get()` suspends. -/
inductive RcvResult (β : Type v) where
  | matched (r : β)
  | suspend
  deriving DecidableEq, Repr

/-- Full outcome of the `while True` scan loop of `Process._receive`:
the result, the final `__tmp_inbox`, the final `inbox_`, and the trace of
messages that were passed to the matcher, in order. -/
structure ScanOut (α : Type u) (β : Type v) where
  result : RcvResult β
  tmp : List α
  inbox : List α
  tested : List α
  deriving DecidableEq, Repr

/-- The `while True` loop of `Process._receive`: take the head of `inbox_`
(suspend if empty), test it; a non-match is appended to `__tmp_inbox` and the
loop continues; on a match, `_cleanup_inbox()` runs and the run result is
returned. Only messages taken from `inbox_` are ever passed to the matcher;
the scan buffer is not consulted. -/
def scan (mtch : α → Option β) : List α → List α → ScanOut α β
  | tmp, [] => ⟨.suspend, tmp, [], []⟩
  | tmp, m :: rest =>
    match mtch m with
    | some r =>
      let c := cleanup_inbox tmp rest
      ⟨.matched r, c.1, c.2, [m]⟩
    | none =>
      let o := scan mtch (tmp ++ [m]) rest
      ⟨o.result, o.tmp, o.inbox, m :: o.tested⟩

/-- Outcome of `Process._receive`: the scan, or the
`ValueError("temporary inbox not empty")` raised up front, which leaves both
queues untouched (carried unchanged in the constructor). -/
inductive RecvOut (α : Type u) (β : Type v) where
  | ok (o : ScanOut α β)
  | tmpNotEmptyError (tmp inbox : List α)
  deriving DecidableEq, Repr

/-- `Process._receive(match)`: fail fast if `__tmp_inbox` is non-empty,
otherwise run the scan loop on the current queues. -/
def recv (mtch : α → Option β) (tmp inbox : List α) : RecvOut α β :=
  if tmp.isEmpty then .ok (scan mtch tmp inbox) else .tmpNotEmptyError tmp inbox

/-- Resuming a suspended `_receive` once new messages have arrived: the
`while True` loop simply continues with the retained `__tmp_inbox` and the
newly arrived contents of `inbox_` (the scan buffer is not restored first). -/
def resume_receive (mtch : α → Option β) (tmp arrivals : List α) : ScanOut α β :=
  scan mtch tmp arrivals

/-- `Process.__repr__`. -/
def procRepr (pid : Nat) : String :=
  "pyrlang.Process: " ++ toString pid

/-- Outcome of `Process.receive` with a timeout, carrying the final
`(tmp, inbox)` queue contents. -/
inductive ReceiveOutcome (α : Type u) (β : Type v) where
  | value (r : β) (tmp inbox : List α)
  | procTimeoutError (emsg : String) (tmp inbox : List α)
  | callbackValue (r : β) (tmp inbox : List α)
  | valueError (tmp inbox : List α)
  deriving DecidableEq, Repr

/-- `Process.receive(match, timeout, timeout_callback)` in the scenario where
the timeout expires before any further delivery: `asyncio.wait_for` cancels
the inner `_receive` at its suspension point (the empty-queue `get`), leaving
`__tmp_inbox` exactly as the scan left it, and then either raises
`ProcessTimeoutError` or returns `timeout_callback()`. If `_receive` matches
on the already-queued messages it completes before the timeout. -/
def receive_timing_out (mtch : α → Option β) (pid : Nat)
    (timeout_callback : Option (Unit → β)) (tmp inbox : List α) :
    ReceiveOutcome α β :=
  match recv mtch tmp inbox with
  | .tmpNotEmptyError t i => .valueError t i
  | .ok o =>
    match o.result with
    | .matched r => .value r o.tmp o.inbox
    | .suspend =>
      match timeout_callback with
      | none => .procTimeoutError ("receive in " ++ procRepr pid ++ " timed out") o.tmp o.inbox
      | some f => .callbackValue (f ()) o.tmp o.inbox

/-- Test fixture: a matcher accepting exactly the message `3`. -/
def matchEq3 : Nat → Option Nat :=
  fun n => if n = 3 then some n else none

/-- Test fixture: a matcher accepting no message. -/
def neverMatchNat : Nat → Option Nat :=
  fun _ => none

theorem drainQueue_eq (src dst : List α) : drainQueue src dst = ([], dst ++ src) := by
  induction src generalizing dst with
  | nil => simp [drainQueue]
  | cons m rest ih => simp [drainQueue, ih]

theorem cleanup_inbox_eq (tmp inbox : List α) :
    cleanup_inbox tmp inbox = ([], tmp ++ inbox) := by
  simp [cleanup_inbox, drainQueue_eq]

/-- **C1.** With mailbox `a, b, c` delivered in that order followed by any
later arrivals `ds`, and a pattern rejecting `a` and `b` but matching `c`,
`_receive` returns the run result for `c`, the scan buffer ends empty, and
the mailbox ends as `[a, b] ++ ds`: the skipped messages are restored to the
front, in order, ahead of the later arrivals. -/
theorem selective_receive_restores_skipped (mtch : α → Option β) (a b c : α)
    (r : β) (ds : List α) (ha : mtch a = none) (hb : mtch b = none)
    (hc : mtch c = some r) :
    recv mtch [] ([a, b, c] ++ ds) = .ok ⟨.matched r, [], [a, b] ++ ds, [a, b, c]⟩ := by
  simp [recv, scan, ha, hb, hc, cleanup_inbox_eq]

theorem selective_receive_restores_skipped_witness :
    recv matchEq3 [] ([1, 2, 3] ++ [4, 5]) =
      .ok ⟨.matched 3, [], [1, 2] ++ [4, 5], [1, 2, 3]⟩ :=
  selective_receive_restores_skipped matchEq3 1 2 3 3 [4, 5]
    (by decide) (by decide) (by decide)

theorem scan_tested_mem (mtch : α → Option β) (tmp ms : List α) :
    ∀ x ∈ (scan mtch tmp ms).tested, x ∈ ms := by
  induction ms generalizing tmp with
  | nil => simp [scan]
  | cons m rest ih =>
    intro x hx
    cases hm : mtch m with
    | some r => simp [scan, hm] at hx; simp [hx]
    | none =>
      simp [scan, hm] at hx
      rcases hx with hx | hx
      · simp [hx]
      · exact List.mem_cons_of_mem m (ih (tmp ++ [m]) x hx)

theorem scan_skipped_shift (mtch : α → Option β) (pre : List α)
    (h : ∀ x ∈ pre, mtch x = none) (ms acc : List α) :
    (scan mtch acc (pre ++ ms)).result = (scan mtch (acc ++ pre) ms).result
  ∧ (scan mtch acc (pre ++ ms)).tmp = (scan mtch (acc ++ pre) ms).tmp
  ∧ (scan mtch acc (pre ++ ms)).inbox = (scan mtch (acc ++ pre) ms).inbox := by
  induction pre generalizing acc with
  | nil => simp
  | cons x pre ih =>
    have hx : mtch x = none := h x (by simp)
    have hrest : ∀ y ∈ pre, mtch y = none := fun y hy => h y (by simp [hy])
    have h3 := ih hrest (acc ++ [x])
    simpa [scan, hx] using h3

/-- **C3 counterexample.** A selective receive that skipped `1` and `2` and
suspended resumes, on arrival of `3`, by testing only the new message: the
tested trace is `[3]`, and in particular the previously-skipped `1` is never
re-tested, refuting "the scan resumes by re-testing all previously-skipped
messages, restarting from the front of the restored queue". -/
theorem resume_does_not_retest_skipped :
    (resume_receive matchEq3 [1, 2] [3]).tested = [3]
  ∧ ¬ (1 ∈ (resume_receive matchEq3 [1, 2] [3]).tested) := by
  decide

/-- **C3 amended.** When a scan suspends and later resumes on new arrivals,
the loop tests only the newly arrived messages (the tested trace is drawn
from `arrivals`), never the buffered skipped ones; but since every buffered
message was skipped by this same (pure) matcher, the resumed scan's result,
final scan buffer and final mailbox coincide with those of a scan restarted
from the front of the restored queue `tmp ++ arrivals`. -/
theorem resume_tests_only_arrivals (mtch : α → Option β) (tmp arrivals : List α)
    (h : ∀ x ∈ tmp, mtch x = none) :
    ((resume_receive mtch tmp arrivals).result = (scan mtch [] (tmp ++ arrivals)).result
     ∧ (resume_receive mtch tmp arrivals).tmp = (scan mtch [] (tmp ++ arrivals)).tmp
     ∧ (resume_receive mtch tmp arrivals).inbox = (scan mtch [] (tmp ++ arrivals)).inbox)
  ∧ ∀ x ∈ (resume_receive mtch tmp arrivals).tested, x ∈ arrivals := by
  constructor
  · have h3 := scan_skipped_shift mtch tmp h arrivals []
    simp only [List.nil_append] at h3
    exact ⟨h3.1.symm, h3.2.1.symm, h3.2.2.symm⟩
  · exact scan_tested_mem mtch tmp arrivals

theorem resume_tests_only_arrivals_witness :
    (resume_receive matchEq3 [1, 2] [3]).result = (scan matchEq3 [] ([1, 2] ++ [3])).result :=
  (resume_tests_only_arrivals matchEq3 [1, 2] [3] (by decide)).1.1

/-- **C8.** Calling `_receive` while the scan buffer from a previous
selective scan is non-empty raises `ValueError` at once: no message is
consumed and both queues are left unchanged; `receive` surfaces the same
error. -/
theorem receive_with_dirty_scan_buffer_fails (mtch : α → Option β)
    (pid : Nat) (cb : Option (Unit → β)) (tmp inbox : List α) (h : tmp ≠ []) :
    recv mtch tmp inbox = .tmpNotEmptyError tmp inbox
  ∧ receive_timing_out mtch pid cb tmp inbox = .valueError tmp inbox := by
  cases tmp with
  | nil => exact absurd rfl h
  | cons t ts => constructor <;> simp [recv, receive_timing_out, List.isEmpty]

theorem receive_with_dirty_scan_buffer_fails_witness :
    recv matchEq3 [9] [1, 2] = .tmpNotEmptyError [9] [1, 2]
  ∧ receive_timing_out matchEq3 0 none [9] [1, 2] = .valueError [9] [1, 2] :=
  receive_with_dirty_scan_buffer_fails matchEq3 0 none [9] [1, 2] (by decide)

/-- **C9.** If the scan over the queued messages suspends (no match) and the
timeout then expires: with no callback, `receive` raises a
`ProcessTimeoutError` describing the waiting process; with a callback `f`,
it returns `f ()` instead. -/
theorem timeout_error_or_callback (mtch : α → Option β) (pid : Nat)
    (inbox : List α) (h : (scan mtch [] inbox).result = RcvResult.suspend) :
    receive_timing_out mtch pid none [] inbox =
      .procTimeoutError ("receive in " ++ procRepr pid ++ " timed out")
        (scan mtch [] inbox).tmp (scan mtch [] inbox).inbox
  ∧ ∀ f : Unit → β, receive_timing_out mtch pid (some f) [] inbox =
      .callbackValue (f ()) (scan mtch [] inbox).tmp (scan mtch [] inbox).inbox := by
  constructor
  · simp [receive_timing_out, recv, h]
  · intro f
    simp [receive_timing_out, recv, h]

theorem timeout_error_or_callback_witness :
    receive_timing_out neverMatchNat 0 none [] [1, 2] =
      .procTimeoutError ("receive in " ++ procRepr 0 ++ " timed out") [1, 2] []
  ∧ receive_timing_out neverMatchNat 0 (some (fun _ => 42)) [] [1, 2] =
      .callbackValue 42 [1, 2] [] :=
  ⟨(timeout_error_or_callback neverMatchNat 0 [1, 2] (by decide)).1,
   (timeout_error_or_callback neverMatchNat 0 [1, 2] (by decide)).2 (fun _ => 42)⟩

/-- **C4 (code bug).** A `receive` with a never-matching pattern on mailbox
`[1]` times out after skipping `1` into the scan buffer, and nothing restores
it: the call returns with scan buffer `[1]`, not empty, and the next
`_receive` then fails with the `ValueError` guard. The code does not restore
buffered skipped messages on timeout as the specification requires. -/
theorem timed_out_receive_leaves_scan_buffer :
    receive_timing_out neverMatchNat 0 none [] [1] =
      .procTimeoutError ("receive in " ++ procRepr 0 ++ " timed out") [1] []
  ∧ recv neverMatchNat [1] [] = .tmpNotEmptyError [1] [] := by
  decide

/-- How awaiting `self._run_task` in `Process.run_wrapper` ends: the loop
returned, was cancelled (`asyncio.CancelledError`), or raised an ordinary
`Exception`. -/
inductive LoopOutcome where
  | finished
  | cancelled
  | faulted
  deriving DecidableEq, Repr

/-- What `Process.run_wrapper` does after the awaited loop ends:
return normally, let the `CancelledError` propagate out of the wrapper
(`raise e`, which skips the code after the try block), or force-cancel the
loop task and process an exit signal inline
(`self._run_task.cancel(); self._on_exit_signal(reason)`). -/
inductive WrapperAction where
  | returnNormally
  | reraiseCancelled
  | cancelAndExitSignal (reason : Term)
  deriving DecidableEq, Repr

/-- `Process.run_wrapper`: a `CancelledError` is expected (and swallowed)
when `is_exiting_` is already set, and re-raised otherwise; an `Exception` is
logged and falls through to the cleanup code, which cancels the run task and
runs `_on_exit_signal(Atom("unhandledexception"))`; a clean return triggers
nothing. -/
def run_wrapper (outcome : LoopOutcome) (is_exiting : Bool) : WrapperAction :=
  match outcome with
  | .cancelled => if is_exiting then .returnNormally else .reraiseCancelled
  | .faulted => .cancelAndExitSignal (Term.atom "unhandledexception")
  | .finished => .returnNormally

/-- How many times a wrapper action runs the exit protocol
(`_on_exit_signal`: monitor and link notification plus registry
deregistration). -/
def exit_protocol_runs : WrapperAction → Nat
  | .cancelAndExitSignal _ => 1
  | _ => 0

/-- **C2 counterexample.** Cancellation of the loop while `is_exiting_` is
false re-raises the `CancelledError` out of the wrapper, so the exit
protocol runs zero times, not once as claimed; and even on the fault path
the synthesized reason atom is not spelled `unhandled exception`. -/
theorem unexpected_cancellation_skips_exit_protocol :
    exit_protocol_runs (run_wrapper .cancelled false) = 0
  ∧ run_wrapper .faulted false ≠ .cancelAndExitSignal (Term.atom "unhandled exception") := by
  decide

/-- **C2 amended.** An uncaught ordinary exception from the loop (in either
exiting state) makes the wrapper force-cancel the loop task and process an
exit signal with reason the atom `unhandledexception` inline, exactly once;
cancellation while not exiting re-raises out of the wrapper and runs the exit
protocol zero times; cancellation while exiting, and a clean return, trigger
nothing. -/
theorem run_wrapper_fault_and_cancellation_behavior (b : Bool) :
    run_wrapper .faulted b = .cancelAndExitSignal (Term.atom "unhandledexception")
  ∧ exit_protocol_runs (run_wrapper .faulted b) = 1
  ∧ run_wrapper .cancelled false = .reraiseCancelled
  ∧ exit_protocol_runs (run_wrapper .cancelled false) = 0
  ∧ run_wrapper .cancelled true = .returnNormally
  ∧ run_wrapper .finished b = .returnNormally := by
  cases b <;> decide

/-- The `(Atom("DOWN"), monitor_ref, Atom("process"), self.pid_, reason)`
tuple built in `Process._trigger_monitors`. -/
def down_msg (monitor_ref self_pid : Nat) (reason : Term) : List Term :=
  [Term.atom "DOWN", Term.ref monitor_ref, Term.atom "process",
   Term.pid self_pid, reason]

/-- `Process._trigger_monitors`: for every `(monitor_ref, monitor_owner)` in
`_monitored_by`, emit `node.send_nowait(sender=self.pid_,
receiver=monitor_owner, message=down_msg)`, as `(sender, receiver, message)`
triples, unconditionally on the reason. -/
def trigger_monitors (self_pid : Nat) (monitored_by : List (Nat × Nat))
    (reason : Term) : List (Nat × Nat × List Term) :=
  monitored_by.map (fun p => (self_pid, p.2, down_msg p.1 self_pid reason))

/-- `Process._trigger_links`: a non-atom reason raises `AttributeError`
(type text of the offending reason omitted); reason `normal` sends nothing;
reason `kill` is remapped to `killed`; then every linked pid is sent
`node.send_link_exit_notification(sender=self.pid_, receiver=link,
reason=reason)`, as `(sender, receiver, reason)` triples. -/
def trigger_links (self_pid : Nat) (links : List Nat) (reason : Term) :
    Except String (List (Nat × Nat × Term)) :=
  match reason with
  | Term.atom s =>
    if s = "normal" then Except.ok []
    else
      let r := if s = "kill" then Term.atom "killed" else Term.atom s
      Except.ok (links.map (fun l => (self_pid, l, r)))
  | _ => Except.error "reason must be Atom"

/-- The externally visible effects of `Process._on_exit_signal`. The call to
`node.on_exit_process` (registry deregistration) follows the two triggers and
is not modelled beyond the flag. -/
structure ExitEffects where
  is_exiting : Bool
  monitor_msgs : List (Nat × Nat × List Term)
  link_msgs : Except String (List (Nat × Nat × Term))
  deriving Repr

/-- `Process._on_exit_signal(reason)`: a `None` reason defaults to the atom
`normal`; the run task is cancelled, `is_exiting_` is set, monitors are
triggered, then links. -/
def on_exit_signal (self_pid : Nat) (monitored_by : List (Nat × Nat))
    (links : List Nat) (reason : Option Term) : ExitEffects :=
  let r := match reason with
    | none => Term.atom "normal"
    | some t => t
  { is_exiting := true
    monitor_msgs := trigger_monitors self_pid monitored_by r
    link_msgs := trigger_links self_pid links r }

/-- **C5.** An exit with reason the atom `normal` sends no link-exit
notification to any linked peer, yet every `(reference, owner)` entry of
`_monitored_by` is still sent the `(DOWN, reference, process, self_pid,
reason)` notification. -/
theorem normal_exit_suppresses_links_notifies_monitors (self_pid : Nat)
    (monitored_by : List (Nat × Nat)) (links : List Nat) :
    (on_exit_signal self_pid monitored_by links (some (Term.atom "normal"))).link_msgs
      = Except.ok []
  ∧ (on_exit_signal self_pid monitored_by links (some (Term.atom "normal"))).monitor_msgs
      = monitored_by.map
          (fun p => (self_pid, p.2, down_msg p.1 self_pid (Term.atom "normal"))) := by
  constructor <;> simp [on_exit_signal, trigger_links, trigger_monitors]

/-- **C6.** An exit with reason the atom `kill` delivers to every linked peer
a link-exit notification carrying the atom `killed`; and link propagation
with any non-atom reason fails with the `AttributeError`. -/
theorem kill_remaps_to_killed_and_non_atom_fails (self_pid : Nat)
    (monitored_by : List (Nat × Nat)) (links : List Nat) (t : Term)
    (h : Term.isAtom t = false) :
    (on_exit_signal self_pid monitored_by links (some (Term.atom "kill"))).link_msgs
      = Except.ok (links.map (fun l => (self_pid, l, Term.atom "killed")))
  ∧ trigger_links self_pid links t = Except.error "reason must be Atom" := by
  constructor
  · simp [on_exit_signal, trigger_links]
  · cases t with
    | atom s => simp [Term.isAtom] at h
    | pid n => rfl
    | ref n => rfl

theorem kill_remaps_to_killed_and_non_atom_fails_witness :
    (on_exit_signal 0 [(5, 6)] [1, 2] (some (Term.atom "kill"))).link_msgs
      = Except.ok [(0, 1, Term.atom "killed"), (0, 2, Term.atom "killed")]
  ∧ trigger_links 0 [1, 2] (Term.pid 7) = Except.error "reason must be Atom" :=
  kill_remaps_to_killed_and_non_atom_fails 0 [(5, 6)] [1, 2] (Term.pid 7) (by decide)

/-- `dict.get(ref, None)` on a `Reference → Pid` map, modelled as an
association list. -/
def dict_get (d : List (Nat × Nat)) (ref : Nat) : Option Nat :=
  (d.find? (fun p => p.1 == ref)).map (fun p => p.2)

/-- `del d[ref]` on the same map (keys are unique in a Python dict). -/
def dict_del (d : List (Nat × Nat)) (ref : Nat) : List (Nat × Nat) :=
  d.filter (fun p => p.1 != ref)

/-- `Process.remove_monitor(pid, ref)`: look up `ref` (absence gives `None`,
which never equals a pid) and delete only on an exact identity match. -/
def remove_monitor (monitors : List (Nat × Nat)) (pid ref : Nat) :
    List (Nat × Nat) :=
  if dict_get monitors ref = some pid then dict_del monitors ref else monitors

/-- `Process.remove_monitored_by(pid, ref)`: same guard as `remove_monitor`,
on the `_monitored_by` map. -/
def remove_monitored_by (monitored_by : List (Nat × Nat)) (pid ref : Nat) :
    List (Nat × Nat) :=
  if dict_get monitored_by ref = some pid then dict_del monitored_by ref
  else monitored_by

/-- `set.remove` raises `KeyError` when the element is absent, so
`Process.remove_link(pid)` errors on an unknown peer; on success the pid is
removed from `_links`. -/
def remove_link (links : List Nat) (pid : Nat) : Except String (List Nat) :=
  if links.contains pid then Except.ok (links.erase pid)
  else Except.error "KeyError"

theorem dict_get_del (d : List (Nat × Nat)) (ref : Nat) :
    dict_get (dict_del d ref) ref = none := by
  induction d with
  | nil => rfl
  | cons p rest ih =>
    by_cases hp : p.1 = ref
    · simp [dict_del, hp]
      simp [dict_del] at ih
      exact ih
    · simp [dict_del, dict_get, List.find?, hp]

/-- **C7.** `remove_monitor` (and `remove_monitored_by`) deletes the entry
for `ref` exactly when the stored identity under `ref` is the supplied pid —
the entry is gone afterwards — and in every other case (mismatch or absent
reference) leaves the map exactly unchanged. -/
theorem demonitor_requires_matching_identity (m mb : List (Nat × Nat))
    (pid ref : Nat) :
    (dict_get m ref = some pid →
       remove_monitor m pid ref = dict_del m ref
     ∧ dict_get (remove_monitor m pid ref) ref = none)
  ∧ (dict_get m ref ≠ some pid → remove_monitor m pid ref = m)
  ∧ (dict_get mb ref = some pid →
       remove_monitored_by mb pid ref = dict_del mb ref
     ∧ dict_get (remove_monitored_by mb pid ref) ref = none)
  ∧ (dict_get mb ref ≠ some pid → remove_monitored_by mb pid ref = mb) := by
  refine ⟨fun h => ⟨?_, ?_⟩, fun h => ?_, fun h => ⟨?_, ?_⟩, fun h => ?_⟩ <;>
    simp [remove_monitor, remove_monitored_by, h, dict_get_del]

theorem demonitor_requires_matching_identity_witness :
    remove_monitor [(5, 7)] 7 5 = dict_del [(5, 7)] 5
  ∧ remove_monitored_by [(4, 9), (3, 8)] 8 4 = [(4, 9), (3, 8)] :=
  ⟨((demonitor_requires_matching_identity [(5, 7)] [] 7 5).1 (by decide)).1,
   (demonitor_requires_matching_identity [] [(4, 9), (3, 8)] 8 4).2.2.2 (by decide)⟩

/-- **C10.** `remove_link` with a peer that is not in the link set fails with
`KeyError` (the set is returned unchanged only through the error path — no
deletion happens), unlike `remove_monitor`, whose absent-reference case is a
silent no-op returning the map unchanged. -/
theorem remove_link_absent_raises (links : List Nat) (pid : Nat)
    (h : links.contains pid = false) :
    remove_link links pid = Except.error "KeyError"
  ∧ ∀ ref : Nat, remove_monitor [] pid ref = [] := by
  constructor
  · have h2 : pid ∉ links := by simpa using h
    simp [remove_link, h2]
  · intro ref
    rfl

theorem remove_link_absent_raises_witness :
    remove_link [1, 2] 3 = Except.error "KeyError" :=
  (remove_link_absent_raises [1, 2] 3 (by decide)).1
